import Mathlib

/-!
Verification of the Codimir SDK transport core against its design
specification.  The definitions below are a shallow embedding of
src/transport.ts (the Transport class: shouldRetry, getDefaultErrorCode,
createApiError, makeRequest's body computation, and the request retry
loop), of the ApiError class, and of the Node-mode server-sent-events
subscriber subscribeNodeSSE (its cancellation handle and its incremental
line parser).
-/

/-- A model of JSON values, used for request and response bodies. -/
inductive Json where
  | null : Json
  | bool (b : Bool) : Json
  | num (n : Int) : Json
  | str (s : String) : Json
  | arr (elems : List Json) : Json
  | obj (fields : List (String × Json)) : Json

/-- Normalized API error, translated from the ApiError class in the SDK
errors module: message, status, code and an optional opaque details
payload. -/
structure ApiError where
  message : String
  status : Nat
  code : String
  details : Option Json

/-- Translated from ApiError.is: check for a specific error code. -/
def ApiError.is (e : ApiError) (code : String) : Bool :=
  e.code == code

/-- Translated from ApiError.isClientError: status in the 4xx range. -/
def ApiError.isClientError (e : ApiError) : Bool :=
  decide (400 ≤ e.status) && decide (e.status < 500)

/-- Translated from ApiError.isServerError: status 500 or above. -/
def ApiError.isServerError (e : ApiError) : Bool :=
  decide (500 ≤ e.status)

/-- The retry policy of TransportOptions.retry: attempts, minDelayMs and
factor.  The attempts field is the maximum number of retries on top of
the first attempt; counts are nonnegative integers. -/
structure RetryConfig where
  attempts : Nat
  minDelayMs : Nat
  factor : Nat

/-- The defaults installed by the Transport constructor:
attempts 2, minDelayMs 300, factor 2 (transport.ts lines 20-25). -/
def defaultRetryConfig : RetryConfig := ⟨2, 300, 2⟩

namespace Transport

/-- Translated from Transport.shouldRetry (transport.ts lines 170-178):
only the idempotent methods GET, HEAD, PUT, DELETE may be retried, and
only on status 429 or a status in the 500-599 range. -/
def shouldRetry (method : String) (status : Nat) : Bool :=
  if !(["GET", "HEAD", "PUT", "DELETE"].contains method) then
    false
  else
    status == 429 || (decide (500 ≤ status) && decide (status < 600))

/-- Translated from Transport.getDefaultErrorCode (transport.ts lines
150-165): the static status-to-code table with UNKNOWN_ERROR as the
default case. -/
def getDefaultErrorCode (status : Nat) : String :=
  if status = 400 then "BAD_REQUEST"
  else if status = 401 then "UNAUTHORIZED"
  else if status = 403 then "FORBIDDEN"
  else if status = 404 then "NOT_FOUND"
  else if status = 409 then "CONFLICT"
  else if status = 422 then "VALIDATION_ERROR"
  else if status = 429 then "RATE_LIMITED"
  else if status = 500 then "INTERNAL_ERROR"
  else if status = 502 then "BAD_GATEWAY"
  else if status = 503 then "SERVICE_UNAVAILABLE"
  else if status = 504 then "GATEWAY_TIMEOUT"
  else "UNKNOWN_ERROR"

/-- Field lookup in the association list of a JSON object. -/
def lookupField : List (String × Json) → String → Option Json
  | [], _ => none
  | (k, v) :: rest, key => if k = key then some v else lookupField rest key

/-- Optional-chaining field access on a JSON value: some value when the
value is an object carrying the key, none otherwise. -/
def jsonField (j : Json) (key : String) : Option Json :=
  match j with
  | Json.obj fields => lookupField fields key
  | _ => none

/-- Extract a string value; non-string values are treated as absent, in
line with the declared ApiErrorResponse type whose message and code
fields are strings. -/
def asString : Json → Option String
  | Json.str s => some s
  | _ => none

/-- Translated from Transport.createApiError (transport.ts lines
131-145).  The bodyJson argument is the result of parsing the error
response body: none when the body was not valid JSON.  The message and
code of a structured error body are used verbatim; otherwise the message
is synthesized as HTTP followed by the status and the code is taken from
the static table. -/
def createApiError (status : Nat) (bodyJson : Option Json) : ApiError :=
  let errObj := bodyJson.bind (fun j => jsonField j "error")
  let message := (errObj.bind (fun e => (jsonField e "message").bind asString)).getD
    ("HTTP " ++ toString status)
  let code := (errObj.bind (fun e => (jsonField e "code").bind asString)).getD
    (getDefaultErrorCode status)
  let details := errObj.bind (fun e => jsonField e "details")
  ⟨message, status, code, details⟩

/-- The timeout error thrown when a caught exception is an AbortError
(transport.ts line 77). -/
def timeoutApiError : ApiError := ⟨"Request timeout", 408, "TIMEOUT", none⟩

/-- The error wrapping an unclassified local failure (transport.ts lines
87-91). -/
def networkApiError (msg : String) : ApiError := ⟨msg, 500, "NETWORK_ERROR", none⟩

/-- The defensive fallback thrown after the retry loop (transport.ts
line 96). -/
def maxRetriesApiError : ApiError :=
  ⟨"Max retry attempts exceeded", 500, "MAX_RETRIES_EXCEEDED", none⟩

/-- The result of one exchange issued by Transport.makeRequest: an HTTP
response with a status and the JSON-parse result of its body (none when
the body is not valid JSON), a rejection with an AbortError raised by the
timeout, or a rejection with any other local error. -/
inductive AttemptResult where
  | resp (status : Nat) (bodyJson : Option Json) : AttemptResult
  | abortError : AttemptResult
  | netError (msg : String) : AttemptResult

/-- The observable outcome of Transport.request: a resolved value (none
models the undefined result of a 204 response), a raised ApiError, or a
raw exception that escapes the method unwrapped. -/
inductive RequestOutcome where
  | success (value : Option Json) : RequestOutcome
  | failure (e : ApiError) : RequestOutcome
  | rawError (msg : String) : RequestOutcome

/-- True when the outcome is a resolved value or a raised ApiError, false
when a raw exception escaped unwrapped. -/
def RequestOutcome.isResolved : RequestOutcome → Bool
  | RequestOutcome.rawError _ => false
  | _ => true

/-- The full observable trace of one Transport.request call: its outcome,
the number of exchanges issued, the backoff delays awaited in order, the
token attached to each exchange in order, the number of token-provider
invocations, and whether the defensive fallback after the loop was
reached. -/
structure RunResult where
  outcome : RequestOutcome
  exchanges : Nat
  delays : List Nat
  tokensUsed : List (Option String)
  providerCalls : Nat
  exhausted : Bool

/-- Trace of a loop iteration that terminates after its single exchange. -/
def oneShot (token : Option String) (o : RequestOutcome) : RunResult :=
  ⟨o, 1, [], [token], 0, false⟩

/-- Trace combinator for a retried iteration: one more exchange, the
backoff delay d, then the trace of the remaining iterations. -/
def retryStep (token : Option String) (d : Nat) (rest : RunResult) : RunResult :=
  ⟨rest.outcome, rest.exchanges + 1, d :: rest.delays, token :: rest.tokensUsed,
   rest.providerCalls, rest.exhausted⟩

/-- Translated from the while loop of Transport.request (transport.ts
lines 46-96).  The fuel argument counts the loop iterations still
permitted by the condition attempt less-or-equal maxAttempts, so the
loop is entered with fuel equal to attempts plus one; the fuel-zero case
is the fallback after the loop (line 96).  Each iteration issues the
exchange fetchSeq attempt; a response in the 200-299 range resolves (204
as no content, otherwise the parsed body with an empty object replacing
an unparseable one), a retry-eligible failure below the budget suspends
for minDelayMs times factor to the power attempt and re-enters with
attempt plus one, an AbortError raises the timeout error, and anything
else raises the normalized error. -/
def requestGo (cfg : RetryConfig) (method : String) (fetchSeq : Nat → AttemptResult)
    (token : Option String) : Nat → Nat → RunResult
  | 0, _ => ⟨RequestOutcome.failure maxRetriesApiError, 0, [], [], 0, true⟩
  | fuel + 1, attempt =>
    match fetchSeq attempt with
    | AttemptResult.resp status bodyJson =>
      if 200 ≤ status ∧ status < 300 then
        if status = 204 then
          oneShot token (RequestOutcome.success none)
        else
          oneShot token (RequestOutcome.success (some (bodyJson.getD (Json.obj []))))
      else if shouldRetry method status ∧ attempt < cfg.attempts then
        retryStep token (cfg.minDelayMs * cfg.factor ^ attempt)
          (requestGo cfg method fetchSeq token fuel (attempt + 1))
      else
        oneShot token (RequestOutcome.failure (createApiError status bodyJson))
    | AttemptResult.abortError =>
      oneShot token (RequestOutcome.failure timeoutApiError)
    | AttemptResult.netError msg =>
      if shouldRetry method 0 ∧ attempt < cfg.attempts then
        retryStep token (cfg.minDelayMs * cfg.factor ^ attempt)
          (requestGo cfg method fetchSeq token fuel (attempt + 1))
      else
        oneShot token (RequestOutcome.failure (networkApiError msg))

/-- The caller-supplied token provider of TransportOptions.getToken:
either absent, or a callable whose k-th invocation either raises (models
a rejected promise or a thrown exception) or yields an optional token. -/
inductive GetToken where
  | absent : GetToken
  | callable (f : Nat → Except String (Option String)) : GetToken

/-- Same trace with the provider-invocation count overwritten. -/
def withProviderCalls (n : Nat) (r : RunResult) : RunResult :=
  ⟨r.outcome, r.exchanges, r.delays, r.tokensUsed, n, r.exhausted⟩

/-- Translated from Transport.request (transport.ts lines 31-97).  The
token is resolved exactly once, before the loop (lines 39-41): when the
provider is a callable its invocation number zero supplies the token for
every attempt.  That resolution happens outside the try block, so a
raising provider escapes as a raw error with no exchange issued. -/
def request (cfg : RetryConfig) (method : String) (getToken : GetToken)
    (fetchSeq : Nat → AttemptResult) : RunResult :=
  match getToken with
  | GetToken.absent => requestGo cfg method fetchSeq none (cfg.attempts + 1) 0
  | GetToken.callable f =>
    match f 0 with
    | Except.error msg => ⟨RequestOutcome.rawError msg, 0, [], [], 1, false⟩
    | Except.ok t => withProviderCalls 1 (requestGo cfg method fetchSeq t (cfg.attempts + 1) 0)

/-- JavaScript truthiness on our JSON model: null, false, zero and the
empty string are falsy; objects and arrays are truthy. -/
def truthy : Json → Bool
  | Json.null => false
  | Json.bool b => b
  | Json.num n => n != 0
  | Json.str s => s != ""
  | Json.arr _ => true
  | Json.obj _ => true

mutual

/-- A model of JSON.stringify for the values of our JSON model. -/
def stringify : Json → String
  | Json.null => "null"
  | Json.bool b => if b then "true" else "false"
  | Json.num n => toString n
  | Json.str s => "\"" ++ s ++ "\""
  | Json.arr xs => "[" ++ stringifyElems xs ++ "]"
  | Json.obj fs => "\x7b" ++ stringifyFields fs ++ "\x7d"

/-- Comma-separated serialization of array elements. -/
def stringifyElems : List Json → String
  | [] => ""
  | [x] => stringify x
  | x :: xs => stringify x ++ "," ++ stringifyElems xs

/-- Comma-separated serialization of object fields. -/
def stringifyFields : List (String × Json) → String
  | [] => ""
  | [(k, v)] => "\"" ++ k ++ "\":" ++ stringify v
  | (k, v) :: fs => "\"" ++ k ++ "\":" ++ stringify v ++ "," ++ stringifyFields fs

end

/-- Translated from the body field that Transport.makeRequest passes to
the exchange primitive (transport.ts line 118): serialize the body when
it is truthy, otherwise send no payload.  The outer Option models an
omitted body argument. -/
def makeRequestBody (body : Option Json) : Option String :=
  match body with
  | none => none
  | some v => if truthy v then some (stringify v) else none

end Transport

/-- The retry decision of one failed attempt, as the specification's
Retry Controller describes it. -/
structure RetryDecision where
  shouldRetry : Bool
  delayMs : Nat

namespace RetryController

/-- The retry decision made inline by Transport.request (transport.ts
lines 61-64 and 80-84): retry exactly when Transport.shouldRetry permits
the method and status and the zero-based attempt index is below the
configured budget; the backoff delay is minDelayMs times factor to the
power attemptIndex. -/
def decide (cfg : RetryConfig) (method : String) (status : Nat)
    (attemptIndex : Nat) : RetryDecision :=
  ⟨Transport.shouldRetry method status && Decidable.decide (attemptIndex < cfg.attempts),
   cfg.minDelayMs * cfg.factor ^ attemptIndex⟩

end RetryController

namespace NodeSSE

/-- The mutable state of one subscribeNodeSSE subscription: the isActive
flag, whether the controller reference is still non-null, and how many
times abort has been invoked on it. -/
structure SubState where
  isActive : Bool
  hasController : Bool
  abortCalls : Nat
deriving DecidableEq

/-- The state right after subscribeNodeSSE starts: active, with a live
AbortController, no abort issued yet. -/
def initialState : SubState := ⟨true, true, 0⟩

/-- Translated from the cleanup function returned by subscribeNodeSSE:
clear the isActive flag, then abort and null out the controller if it is
still present. -/
def cleanup (s : SubState) : SubState :=
  let s1 : SubState := ⟨false, s.hasController, s.abortCalls⟩
  if s1.hasController then ⟨false, false, s1.abortCalls + 1⟩ else s1

/-- The guard before scheduling a reconnect timer in the catch block of
connect: a reconnect is scheduled only while isActive holds. -/
def canScheduleReconnect (s : SubState) : Bool := s.isActive

/-- The guard inside the reconnect timer callback: the reopened exchange
is issued only while isActive holds. -/
def canStartReconnect (s : SubState) : Bool := s.isActive

/-- The condition of the chunk-reading loop: reading and delivery
continue only while isActive holds. -/
def readLoopContinues (s : SubState) : Bool := s.isActive

/-- Translated from the manual parser of subscribeNodeSSE: split a text
into its complete lines and the trailing incomplete line.  This is the
semantics of splitting the buffer on newline and popping the last
element back into the buffer. -/
def splitLines : List Char → List (List Char) × List Char
  | [] => ([], [])
  | c :: cs =>
    if c = '\n' then
      ([] :: (splitLines cs).1, (splitLines cs).2)
    else
      match splitLines cs with
      | ([], t) => ([], c :: t)
      | (l :: ls, t) => ((c :: l) :: ls, t)

/-- How the line split of a concatenation extends the line split of its
second part, given the trailing incomplete text of the first part. -/
def mergeSplit (ta : List Char) : List (List Char) × List Char → List (List Char) × List Char
  | ([], tb) => ([], ta ++ tb)
  | (l :: ls, tb) => ((ta ++ l) :: ls, tb)

/-- The test line.startsWith applied with the data marker (the six
characters d, a, t, a, colon, space). -/
def isDataLine (l : List Char) : Bool :=
  l.take 6 == "data: ".toList

/-- The payload of a data line: line.slice applied at six, the marker
stripped. -/
def payloadOf (l : List Char) : List Char := l.drop 6

/-- The events delivered for a list of complete lines: each line that
begins with the data marker yields its payload, in order. -/
def events (lines : List (List Char)) : List (List Char) :=
  (lines.filter isDataLine).map payloadOf

/-- One read-loop iteration of subscribeNodeSSE: append the chunk to the
buffer, split on line boundaries, keep the incomplete last line as the
new buffer, and deliver the payload of each complete data line. -/
def feed (buf chunk : List Char) : List Char × List (List Char) :=
  ((splitLines (buf ++ chunk)).2, events (splitLines (buf ++ chunk)).1)

/-- The fold step accumulating delivered events across reads. -/
def feedStep (acc : List Char × List (List Char)) (chunk : List Char) :
    List Char × List (List Char) :=
  ((feed acc.1 chunk).1, acc.2 ++ (feed acc.1 chunk).2)

/-- Run the parser over a whole sequence of read chunks, starting from an
empty buffer, returning the final buffer and every event delivered. -/
def feedAll (chunks : List (List Char)) : List Char × List (List Char) :=
  chunks.foldl feedStep ([], [])

end NodeSSE

/-- The exchange primitive of the retry scenario in the specification:
503 on attempts zero and one, then 200 with an id field of x. -/
def c3Fetch : Nat → Transport.AttemptResult := fun n =>
  if n < 2 then Transport.AttemptResult.resp 503 none
  else Transport.AttemptResult.resp 200 (some (Json.obj [("id", Json.str "x")]))

/-- A token provider whose k-th invocation yields the token t followed by
the invocation number, so successive invocations yield distinct tokens. -/
def c6Provider : Nat → Except String (Option String) :=
  fun k => Except.ok (some ("t" ++ toString k))

/-- An exchange primitive that fails with 503 on the first attempt and
succeeds afterwards, forcing exactly one retry of a GET. -/
def c6Fetch : Nat → Transport.AttemptResult := fun n =>
  if n = 0 then Transport.AttemptResult.resp 503 none
  else Transport.AttemptResult.resp 200 none

namespace Transport

theorem requestGo_resolved (cfg : RetryConfig) (method : String)
    (fetchSeq : Nat → AttemptResult) (token : Option String) :
    ∀ fuel attempt,
      ((requestGo cfg method fetchSeq token fuel attempt).outcome).isResolved = true := by
  intro fuel
  induction fuel with
  | zero => intro attempt; rfl
  | succ n ih =>
    intro attempt
    cases hf : fetchSeq attempt with
    | resp status bodyJson =>
      simp only [requestGo, hf]
      split
      · split <;> rfl
      · split
        · simp only [retryStep]; exact ih (attempt + 1)
        · rfl
    | abortError => simp only [requestGo, hf]; rfl
    | netError msg =>
      simp only [requestGo, hf]
      split
      · simp only [retryStep]; exact ih (attempt + 1)
      · rfl

theorem requestGo_tokens (cfg : RetryConfig) (method : String)
    (fetchSeq : Nat → AttemptResult) (token : Option String) :
    ∀ fuel attempt tok, tok ∈ (requestGo cfg method fetchSeq token fuel attempt).tokensUsed →
      tok = token := by
  intro fuel
  induction fuel with
  | zero => intro attempt tok h; simp [requestGo] at h
  | succ n ih =>
    intro attempt tok h
    cases hf : fetchSeq attempt with
    | resp status bodyJson =>
      simp only [requestGo, hf] at h
      split at h
      · split at h <;> (simp [oneShot] at h; exact h)
      · split at h
        · simp only [retryStep, List.mem_cons] at h
          rcases h with h | h
          · exact h
          · exact ih (attempt + 1) tok h
        · simp [oneShot] at h; exact h
    | abortError => simp only [requestGo, hf, oneShot] at h; simp at h; exact h
    | netError msg =>
      simp only [requestGo, hf] at h
      split at h
      · simp only [retryStep, List.mem_cons] at h
        rcases h with h | h
        · exact h
        · exact ih (attempt + 1) tok h
      · simp [oneShot] at h; exact h

theorem requestGo_not_exhausted (cfg : RetryConfig) (method : String)
    (fetchSeq : Nat → AttemptResult) (token : Option String) :
    ∀ fuel attempt, attempt ≤ cfg.attempts → cfg.attempts + 1 ≤ attempt + fuel →
      (requestGo cfg method fetchSeq token fuel attempt).exhausted = false := by
  intro fuel
  induction fuel with
  | zero => intro attempt h1 h2; omega
  | succ n ih =>
    intro attempt h1 h2
    cases hf : fetchSeq attempt with
    | resp status bodyJson =>
      simp only [requestGo, hf]
      split
      · split <;> rfl
      · split
        · rename_i hcond
          simp only [retryStep]
          exact ih (attempt + 1) hcond.2 (by omega)
        · rfl
    | abortError => simp only [requestGo, hf]; rfl
    | netError msg =>
      simp only [requestGo, hf]
      split
      · rename_i hcond
        simp only [retryStep]
        exact ih (attempt + 1) hcond.2 (by omega)
      · rfl

end Transport

namespace NodeSSE

theorem splitLines_no_newline : ∀ xs : List Char, (∀ ch ∈ xs, ch ≠ '\n') →
    splitLines xs = ([], xs) := by
  intro xs
  induction xs with
  | nil => intro _; rfl
  | cons c cs ih =>
    intro h
    have hc : c ≠ '\n' := h c (List.mem_cons_self c cs)
    have hcs := ih (fun ch hch => h ch (List.mem_cons_of_mem c hch))
    simp [splitLines, hc, hcs]

theorem splitLines_snd_no_newline : ∀ xs : List Char, ∀ ch ∈ (splitLines xs).2, ch ≠ '\n' := by
  intro xs
  induction xs with
  | nil => intro ch h; simp [splitLines] at h
  | cons c cs ih =>
    intro ch h
    by_cases hc : c = '\n'
    · simp only [splitLines, hc, if_pos] at h
      exact ih ch h
    · simp only [splitLines, hc, if_neg, not_false_iff] at h
      cases hs : splitLines cs with
      | mk ls t =>
        rw [hs] at h
        cases ls with
        | nil =>
          simp at h
          rcases h with h | h
          · subst h; exact hc
          · exact ih ch (by rw [hs]; exact h)
        | cons l ls2 =>
          simp at h
          exact ih ch (by rw [hs]; exact h)

theorem splitLines_append (a b : List Char) :
    splitLines (a ++ b)
      = ((splitLines a).1 ++ (mergeSplit (splitLines a).2 (splitLines b)).1,
         (mergeSplit (splitLines a).2 (splitLines b)).2) := by
  induction a with
  | nil =>
    cases hb : splitLines b with
    | mk lb tb => cases lb <;> simp [splitLines, mergeSplit, hb]
  | cons c cs ih =>
    by_cases hc : c = '\n'
    · subst hc
      have lhs : splitLines (('\n' :: cs) ++ b)
          = ([] :: (splitLines (cs ++ b)).1, (splitLines (cs ++ b)).2) := by
        simp [splitLines]
      have rhs : splitLines ('\n' :: cs)
          = ([] :: (splitLines cs).1, (splitLines cs).2) := by
        simp [splitLines]
      rw [lhs, rhs, ih]
      cases hcs : splitLines cs with
      | mk lcs tcs =>
        cases hb : splitLines b with
        | mk lb tb => cases lb <;> simp [mergeSplit]
    · cases hcs : splitLines cs with
      | mk lcs tcs =>
        cases hb : splitLines b with
        | mk lb tb =>
          rw [hcs, hb] at ih
          have lhs : splitLines ((c :: cs) ++ b)
              = (match splitLines (cs ++ b) with
                 | ([], t) => ([], c :: t)
                 | (l :: ls, t) => ((c :: l) :: ls, t)) := by
            simp [splitLines, hc]
          have rhs : splitLines (c :: cs)
              = (match splitLines cs with
                 | ([], t) => ([], c :: t)
                 | (l :: ls, t) => ((c :: l) :: ls, t)) := by
            simp [splitLines, hc]
          rw [lhs, ih, rhs, hcs]
          cases lcs <;> cases lb <;> simp [mergeSplit]

theorem events_append (x y : List (List Char)) : events (x ++ y) = events x ++ events y := by
  simp [events, List.filter_append]

theorem feedAll_go (chunks : List (List Char)) :
    ∀ buf out, (∀ ch ∈ buf, ch ≠ '\n') →
      chunks.foldl feedStep (buf, out)
        = ((splitLines (buf ++ chunks.flatten)).2,
           out ++ events (splitLines (buf ++ chunks.flatten)).1) := by
  induction chunks with
  | nil =>
    intro buf out hbuf
    simp [splitLines_no_newline buf hbuf, events]
  | cons ch chs ih =>
    intro buf out hbuf
    simp only [List.foldl_cons, List.flatten_cons]
    have hstep : feedStep (buf, out) ch
        = ((splitLines (buf ++ ch)).2, out ++ events (splitLines (buf ++ ch)).1) := rfl
    rw [hstep]
    rw [ih _ _ (splitLines_snd_no_newline (buf ++ ch))]
    have key := splitLines_append (buf ++ ch) chs.flatten
    have hmid := splitLines_append ((splitLines (buf ++ ch)).2) chs.flatten
    rw [splitLines_no_newline _ (splitLines_snd_no_newline (buf ++ ch))] at hmid
    rw [← List.append_assoc]
    rw [key, hmid]
    simp [events_append]

theorem feedAll_flatten (chunks : List (List Char)) :
    (feedAll chunks).2 = events (splitLines chunks.flatten).1
      ∧ (feedAll chunks).2 = (feedAll [chunks.flatten]).2 := by
  constructor
  · have h := feedAll_go chunks [] [] (by intro ch h; simp at h)
    simp only [feedAll, h, List.nil_append]
  · have h1 := feedAll_go chunks [] [] (by intro ch h; simp at h)
    have h2 := feedAll_go [chunks.flatten] [] [] (by intro ch h; simp at h)
    simp only [feedAll, h1, h2, List.flatten_cons, List.flatten_nil, List.append_nil,
      List.nil_append]

end NodeSSE

/-- C1: for every non-idempotent method (POST, PATCH), every status and
every attemptIndex, the retry decision is shouldRetry false, so
Transport.request never retries such a call: a POST whose exchange
returns 500 fails on the first attempt with a normalized error of code
INTERNAL_ERROR, with one exchange issued and no backoff delay. -/
theorem C1_non_idempotent_never_retried (cfg : RetryConfig) (status attemptIndex : Nat) :
    (RetryController.decide cfg "POST" status attemptIndex).shouldRetry = false
    ∧ (RetryController.decide cfg "PATCH" status attemptIndex).shouldRetry = false
    ∧ (Transport.request cfg "POST" Transport.GetToken.absent
        (fun _ => Transport.AttemptResult.resp 500 none)).outcome
        = Transport.RequestOutcome.failure ⟨"HTTP 500", 500, "INTERNAL_ERROR", none⟩
    ∧ (Transport.request cfg "POST" Transport.GetToken.absent
        (fun _ => Transport.AttemptResult.resp 500 none)).exchanges = 1
    ∧ (Transport.request cfg "POST" Transport.GetToken.absent
        (fun _ => Transport.AttemptResult.resp 500 none)).delays = [] :=
  ⟨rfl, rfl, rfl, rfl, rfl⟩

/-- C2: the claim says a local network exception (status zero) on an
idempotent method below the attempt budget is retry-eligible, but
Transport.shouldRetry returns false at status zero for every method, so
the retry branch for caught non-abort exceptions is dead code: a GET
whose exchange raises a network error under the default budget fails
immediately with code NETWORK_ERROR after one exchange and no delay. -/
theorem C2_network_failure_never_retried (method : String) :
    Transport.shouldRetry method 0 = false
    ∧ (Transport.request ⟨2, 300, 2⟩ "GET" Transport.GetToken.absent
        (fun _ => Transport.AttemptResult.netError "ECONNRESET")).outcome
        = Transport.RequestOutcome.failure ⟨"ECONNRESET", 500, "NETWORK_ERROR", none⟩
    ∧ (Transport.request ⟨2, 300, 2⟩ "GET" Transport.GetToken.absent
        (fun _ => Transport.AttemptResult.netError "ECONNRESET")).exchanges = 1
    ∧ (Transport.request ⟨2, 300, 2⟩ "GET" Transport.GetToken.absent
        (fun _ => Transport.AttemptResult.netError "ECONNRESET")).delays = [] := by
  refine ⟨?_, rfl, rfl, rfl⟩
  simp [Transport.shouldRetry]

/-- C3: for every idempotent method, decide at status 503 with
attemptIndex below the budget retries with delay minDelayMs times factor
to the power attemptIndex, decide at attemptIndex equal to the budget
does not retry, and the specification scenario (GET, 503 twice then 200
with id x, policy attempts 2, minDelayMs 100, factor 2) succeeds with
the decoded body after exactly the delays 100 and 200 over three
exchanges. -/
theorem C3_idempotent_backoff_and_budget (cfg : RetryConfig) (i : Nat) (h : i < cfg.attempts) :
    RetryController.decide cfg "GET" 503 i = ⟨true, cfg.minDelayMs * cfg.factor ^ i⟩
    ∧ RetryController.decide cfg "HEAD" 503 i = ⟨true, cfg.minDelayMs * cfg.factor ^ i⟩
    ∧ RetryController.decide cfg "PUT" 503 i = ⟨true, cfg.minDelayMs * cfg.factor ^ i⟩
    ∧ RetryController.decide cfg "DELETE" 503 i = ⟨true, cfg.minDelayMs * cfg.factor ^ i⟩
    ∧ (RetryController.decide cfg "GET" 503 cfg.attempts).shouldRetry = false
    ∧ (RetryController.decide cfg "HEAD" 503 cfg.attempts).shouldRetry = false
    ∧ (RetryController.decide cfg "PUT" 503 cfg.attempts).shouldRetry = false
    ∧ (RetryController.decide cfg "DELETE" 503 cfg.attempts).shouldRetry = false
    ∧ (Transport.request ⟨2, 100, 2⟩ "GET" Transport.GetToken.absent c3Fetch).outcome
        = Transport.RequestOutcome.success (some (Json.obj [("id", Json.str "x")]))
    ∧ (Transport.request ⟨2, 100, 2⟩ "GET" Transport.GetToken.absent c3Fetch).delays = [100, 200]
    ∧ (Transport.request ⟨2, 100, 2⟩ "GET" Transport.GetToken.absent c3Fetch).exchanges = 3 := by
  refine ⟨?_, ?_, ?_, ?_, ?_, ?_, ?_, ?_, rfl, rfl, rfl⟩
  all_goals simp [RetryController.decide, Transport.shouldRetry, h]

/-- Witness for C3 at the concrete policy of the specification scenario
and attempt index zero. -/
theorem C3_witness :
    0 < (⟨2, 100, 2⟩ : RetryConfig).attempts
    ∧ (RetryController.decide ⟨2, 100, 2⟩ "GET" 503 0 = ⟨true, 100⟩
       ∧ RetryController.decide ⟨2, 100, 2⟩ "HEAD" 503 0 = ⟨true, 100⟩
       ∧ RetryController.decide ⟨2, 100, 2⟩ "PUT" 503 0 = ⟨true, 100⟩
       ∧ RetryController.decide ⟨2, 100, 2⟩ "DELETE" 503 0 = ⟨true, 100⟩
       ∧ (RetryController.decide ⟨2, 100, 2⟩ "GET" 503 2).shouldRetry = false
       ∧ (RetryController.decide ⟨2, 100, 2⟩ "HEAD" 503 2).shouldRetry = false
       ∧ (RetryController.decide ⟨2, 100, 2⟩ "PUT" 503 2).shouldRetry = false
       ∧ (RetryController.decide ⟨2, 100, 2⟩ "DELETE" 503 2).shouldRetry = false
       ∧ (Transport.request ⟨2, 100, 2⟩ "GET" Transport.GetToken.absent c3Fetch).outcome
           = Transport.RequestOutcome.success (some (Json.obj [("id", Json.str "x")]))
       ∧ (Transport.request ⟨2, 100, 2⟩ "GET" Transport.GetToken.absent c3Fetch).delays = [100, 200]
       ∧ (Transport.request ⟨2, 100, 2⟩ "GET" Transport.GetToken.absent c3Fetch).exchanges = 3) :=
  ⟨by decide, C3_idempotent_backoff_and_budget ⟨2, 100, 2⟩ 0 (by decide)⟩

/-- C4 counterexample: the claim that no raw exception escapes
Transport.request unwrapped, including an exception of the
caller-supplied token provider, is false: the token is resolved outside
the try block, so a provider that raises makes the call terminate with
the raw exception, not with a normalized error, before any exchange is
issued. -/
theorem C4_counterexample_token_provider_exception :
    (Transport.request ⟨2, 300, 2⟩ "GET"
        (Transport.GetToken.callable (fun _ => Except.error "token boom"))
        (fun _ => Transport.AttemptResult.resp 200 (some Json.null))).outcome
      = Transport.RequestOutcome.rawError "token boom"
    ∧ ((Transport.request ⟨2, 300, 2⟩ "GET"
        (Transport.GetToken.callable (fun _ => Except.error "token boom"))
        (fun _ => Transport.AttemptResult.resp 200 (some Json.null))).outcome).isResolved = false
    ∧ (Transport.request ⟨2, 300, 2⟩ "GET"
        (Transport.GetToken.callable (fun _ => Except.error "token boom"))
        (fun _ => Transport.AttemptResult.resp 200 (some Json.null))).exchanges = 0 :=
  ⟨rfl, rfl, rfl⟩

/-- C4 as amended: whenever the token resolution itself does not raise
(the provider is absent, or its invocation yields a token), every
execution of Transport.request ends in either a resolved value or a
single raised ApiError, never an unwrapped raw exception. -/
theorem C4_resolved_value_or_normalized_error (cfg : RetryConfig) (method : String)
    (fetchSeq : Nat → Transport.AttemptResult) (f : Nat → Except String (Option String))
    (t : Option String) (hf : f 0 = Except.ok t) :
    ((Transport.request cfg method Transport.GetToken.absent fetchSeq).outcome).isResolved = true
    ∧ ((Transport.request cfg method (Transport.GetToken.callable f) fetchSeq).outcome).isResolved
        = true := by
  constructor
  · exact Transport.requestGo_resolved cfg method fetchSeq none (cfg.attempts + 1) 0
  · simp only [Transport.request, hf, Transport.withProviderCalls]
    exact Transport.requestGo_resolved cfg method fetchSeq t (cfg.attempts + 1) 0

/-- Witness for the amended C4 with a provider that yields a token. -/
theorem C4_witness :
    (fun _ => Except.ok (some "k") : Nat → Except String (Option String)) 0
        = Except.ok (some "k")
    ∧ (((Transport.request defaultRetryConfig "GET" Transport.GetToken.absent
          (fun _ => Transport.AttemptResult.resp 200 none)).outcome).isResolved = true
       ∧ ((Transport.request defaultRetryConfig "GET"
          (Transport.GetToken.callable (fun _ => Except.ok (some "k")))
          (fun _ => Transport.AttemptResult.resp 200 none)).outcome).isResolved = true) :=
  ⟨rfl, C4_resolved_value_or_normalized_error defaultRetryConfig "GET"
    (fun _ => Transport.AttemptResult.resp 200 none) (fun _ => Except.ok (some "k"))
    (some "k") rfl⟩

/-- C5: the defensive fallback after the retry loop produces the
dedicated MAX_RETRIES_EXCEEDED error and is unreachable: every actual
call of Transport.request, for every configuration, method, token
provider and exchange sequence, terminates without reaching it. -/
theorem C5_max_retries_fallback_unreachable (cfg : RetryConfig) (method : String)
    (gt : Transport.GetToken) (fetchSeq : Nat → Transport.AttemptResult) :
    (Transport.request cfg method gt fetchSeq).exhausted = false
    ∧ (∀ token attempt, Transport.requestGo cfg method fetchSeq token 0 attempt
        = ⟨Transport.RequestOutcome.failure Transport.maxRetriesApiError, 0, [], [], 0, true⟩)
    ∧ Transport.maxRetriesApiError.code = "MAX_RETRIES_EXCEEDED"
    ∧ Transport.maxRetriesApiError.status = 500 := by
  refine ⟨?_, fun token attempt => rfl, rfl, rfl⟩
  cases gt with
  | absent =>
    exact Transport.requestGo_not_exhausted cfg method fetchSeq none (cfg.attempts + 1) 0
      (Nat.zero_le _) (by omega)
  | callable f =>
    cases hf : f 0 with
    | error msg => simp [Transport.request, hf]
    | ok t =>
      simp only [Transport.request, hf, Transport.withProviderCalls]
      exact Transport.requestGo_not_exhausted cfg method fetchSeq t (cfg.attempts + 1) 0
        (Nat.zero_le _) (by omega)

/-- C6 counterexample: the claim that the token is resolved anew before
every attempt is false: with a provider whose successive invocations
yield the distinct tokens t0 and t1, a GET that is retried once attaches
the cached token t0 to both exchanges and invokes the provider exactly
once, instead of attaching t1 to the second exchange. -/
theorem C6_counterexample_token_cached :
    (Transport.request ⟨2, 300, 2⟩ "GET" (Transport.GetToken.callable c6Provider) c6Fetch).tokensUsed
      = [some "t0", some "t0"]
    ∧ (Transport.request ⟨2, 300, 2⟩ "GET" (Transport.GetToken.callable c6Provider) c6Fetch).tokensUsed
      ≠ [some "t0", some "t1"]
    ∧ (Transport.request ⟨2, 300, 2⟩ "GET" (Transport.GetToken.callable c6Provider) c6Fetch).providerCalls
      = 1
    ∧ (Transport.request ⟨2, 300, 2⟩ "GET" (Transport.GetToken.callable c6Provider) c6Fetch).exchanges
      = 2 :=
  ⟨rfl, by decide, rfl, rfl⟩

/-- C6 as amended: Transport.request resolves the token exactly once,
before the first attempt, and attaches that same token to every exchange
of the call, including re-attempts after a backoff delay. -/
theorem C6_token_resolved_once_and_reused (cfg : RetryConfig) (method : String)
    (fetchSeq : Nat → Transport.AttemptResult) (f : Nat → Except String (Option String))
    (t : Option String) (hf : f 0 = Except.ok t) :
    (Transport.request cfg method (Transport.GetToken.callable f) fetchSeq).providerCalls = 1
    ∧ ∀ tok ∈ (Transport.request cfg method (Transport.GetToken.callable f) fetchSeq).tokensUsed,
        tok = t := by
  refine ⟨?_, ?_⟩
  · simp [Transport.request, hf, Transport.withProviderCalls]
  · simp only [Transport.request, hf, Transport.withProviderCalls]
    exact fun tok h => Transport.requestGo_tokens cfg method fetchSeq t _ 0 tok h

/-- Witness for the amended C6 at the counterexample inputs. -/
theorem C6_witness :
    c6Provider 0 = Except.ok (some "t0")
    ∧ ((Transport.request ⟨2, 300, 2⟩ "GET" (Transport.GetToken.callable c6Provider) c6Fetch).providerCalls = 1
       ∧ ∀ tok ∈ (Transport.request ⟨2, 300, 2⟩ "GET" (Transport.GetToken.callable c6Provider) c6Fetch).tokensUsed,
           tok = some "t0") :=
  ⟨rfl, C6_token_resolved_once_and_reused ⟨2, 300, 2⟩ "GET" c6Fetch c6Provider (some "t0") rfl⟩

/-- C7: invoking the cancellation handle of a manual-mode (Node)
subscription is idempotent: a second invocation changes nothing and
issues no further abort; any invocation clears the active flag, so the
guard before scheduling a reconnect, the guard before issuing the
reopened exchange and the read-loop condition are all false afterwards;
and invoking it on a live subscription aborts the in-flight exchange
exactly once. -/
theorem C7_cancellation_idempotent (s : NodeSSE.SubState) :
    NodeSSE.cleanup (NodeSSE.cleanup s) = NodeSSE.cleanup s
    ∧ (NodeSSE.cleanup s).isActive = false
    ∧ NodeSSE.canScheduleReconnect (NodeSSE.cleanup s) = false
    ∧ NodeSSE.canStartReconnect (NodeSSE.cleanup s) = false
    ∧ NodeSSE.readLoopContinues (NodeSSE.cleanup s) = false
    ∧ (NodeSSE.cleanup (NodeSSE.cleanup s)).abortCalls = (NodeSSE.cleanup s).abortCalls
    ∧ NodeSSE.cleanup NodeSSE.initialState = ⟨false, false, 1⟩ := by
  obtain ⟨a, b, n⟩ := s
  cases b <;> simp [NodeSSE.cleanup, NodeSSE.canScheduleReconnect, NodeSSE.canStartReconnect,
    NodeSSE.readLoopContinues, NodeSSE.initialState]

/-- C8: the manual-mode stream parser is invariant under re-chunking:
for every partition of a text into read chunks the delivered payload
sequence equals the payload sequence of the unpartitioned text, namely
one event per complete line beginning with the data marker, marker
stripped, in order; in particular the heartbeat frame split across two
reads delivers exactly one event. -/
theorem C8_parser_invariant_under_rechunking (chunks : List (List Char)) :
    (NodeSSE.feedAll chunks).2 = NodeSSE.events (NodeSSE.splitLines chunks.flatten).1
    ∧ (NodeSSE.feedAll chunks).2 = (NodeSSE.feedAll [chunks.flatten]).2
    ∧ (NodeSSE.feedAll ["data: \x7b\"type\":\"heart".toList, "beat\"\x7d\n\n".toList]).2
        = ["\x7b\"type\":\"heartbeat\"\x7d".toList] :=
  ⟨(NodeSSE.feedAll_flatten chunks).1, (NodeSSE.feedAll_flatten chunks).2, rfl⟩

/-- C9: error normalization is total and deterministic: the normalized
status equals the response status (hence stays in the 100 to 599 range
whenever the response status does), the timeout and network sentinels
are 408 TIMEOUT and 500 NETWORK_ERROR, a structured error body has its
message, code and details used verbatim, an unparseable body falls back
to the message HTTP status and the static table code, and the table maps
each listed status to its code with UNKNOWN_ERROR for everything else. -/
theorem C9_error_normalizer_total (status : Nat) (bodyJson : Option Json)
    (m c : String) (d : Json) (msg : String)
    (h1 : 100 ≤ status) (h2 : status ≤ 599)
    (h3 : status ∉ ([400, 401, 403, 404, 409, 422, 429, 500, 502, 503, 504] : List Nat)) :
    (Transport.createApiError status bodyJson).status = status
    ∧ 100 ≤ (Transport.createApiError status bodyJson).status
    ∧ (Transport.createApiError status bodyJson).status ≤ 599
    ∧ Transport.timeoutApiError.status = 408
    ∧ Transport.timeoutApiError.code = "TIMEOUT"
    ∧ (Transport.networkApiError msg).status = 500
    ∧ (Transport.networkApiError msg).code = "NETWORK_ERROR"
    ∧ Transport.createApiError status
        (some (Json.obj [("error", Json.obj
          [("message", Json.str m), ("code", Json.str c), ("details", d)])]))
        = ⟨m, status, c, some d⟩
    ∧ Transport.createApiError status none
        = ⟨"HTTP " ++ toString status, status, Transport.getDefaultErrorCode status, none⟩
    ∧ Transport.getDefaultErrorCode 400 = "BAD_REQUEST"
    ∧ Transport.getDefaultErrorCode 401 = "UNAUTHORIZED"
    ∧ Transport.getDefaultErrorCode 403 = "FORBIDDEN"
    ∧ Transport.getDefaultErrorCode 404 = "NOT_FOUND"
    ∧ Transport.getDefaultErrorCode 409 = "CONFLICT"
    ∧ Transport.getDefaultErrorCode 422 = "VALIDATION_ERROR"
    ∧ Transport.getDefaultErrorCode 429 = "RATE_LIMITED"
    ∧ Transport.getDefaultErrorCode 500 = "INTERNAL_ERROR"
    ∧ Transport.getDefaultErrorCode 502 = "BAD_GATEWAY"
    ∧ Transport.getDefaultErrorCode 503 = "SERVICE_UNAVAILABLE"
    ∧ Transport.getDefaultErrorCode 504 = "GATEWAY_TIMEOUT"
    ∧ Transport.getDefaultErrorCode status = "UNKNOWN_ERROR" := by
  refine ⟨rfl, h1, h2, rfl, rfl, rfl, rfl, rfl, rfl, rfl, rfl, rfl, rfl, rfl, rfl, rfl, rfl,
    rfl, rfl, rfl, ?_⟩
  simp only [List.mem_cons, List.not_mem_nil, or_false] at h3
  push_neg at h3
  obtain ⟨n1, n2, n3, n4, n5, n6, n7, n8, n9, n10, n11⟩ := h3
  simp [Transport.getDefaultErrorCode, n1, n2, n3, n4, n5, n6, n7, n8, n9, n10, n11]

/-- Witness for C9 at status 418 with an unparseable body. -/
theorem C9_witness :
    (100 ≤ 418 ∧ 418 ≤ 599
      ∧ 418 ∉ ([400, 401, 403, 404, 409, 422, 429, 500, 502, 503, 504] : List Nat))
    ∧ ((Transport.createApiError 418 none).status = 418
    ∧ 100 ≤ (Transport.createApiError 418 none).status
    ∧ (Transport.createApiError 418 none).status ≤ 599
    ∧ Transport.timeoutApiError.status = 408
    ∧ Transport.timeoutApiError.code = "TIMEOUT"
    ∧ (Transport.networkApiError "boom").status = 500
    ∧ (Transport.networkApiError "boom").code = "NETWORK_ERROR"
    ∧ Transport.createApiError 418
        (some (Json.obj [("error", Json.obj
          [("message", Json.str "m"), ("code", Json.str "c"), ("details", Json.null)])]))
        = ⟨"m", 418, "c", some Json.null⟩
    ∧ Transport.createApiError 418 none
        = ⟨"HTTP " ++ toString 418, 418, Transport.getDefaultErrorCode 418, none⟩
    ∧ Transport.getDefaultErrorCode 400 = "BAD_REQUEST"
    ∧ Transport.getDefaultErrorCode 401 = "UNAUTHORIZED"
    ∧ Transport.getDefaultErrorCode 403 = "FORBIDDEN"
    ∧ Transport.getDefaultErrorCode 404 = "NOT_FOUND"
    ∧ Transport.getDefaultErrorCode 409 = "CONFLICT"
    ∧ Transport.getDefaultErrorCode 422 = "VALIDATION_ERROR"
    ∧ Transport.getDefaultErrorCode 429 = "RATE_LIMITED"
    ∧ Transport.getDefaultErrorCode 500 = "INTERNAL_ERROR"
    ∧ Transport.getDefaultErrorCode 502 = "BAD_GATEWAY"
    ∧ Transport.getDefaultErrorCode 503 = "SERVICE_UNAVAILABLE"
    ∧ Transport.getDefaultErrorCode 504 = "GATEWAY_TIMEOUT"
    ∧ Transport.getDefaultErrorCode 418 = "UNKNOWN_ERROR") :=
  ⟨by decide, C9_error_normalizer_total 418 none "m" "c" Json.null "boom"
    (by decide) (by decide) (by decide)⟩

/-- C10: a body argument that is present but falsy (zero, the empty
string, false, or null) sends no payload on the wire, exactly as an
omitted body; only a truthy body is JSON-serialized and sent. -/
theorem C10_falsy_body_sends_no_payload (v : Json) (h : Transport.truthy v = true) :
    Transport.makeRequestBody none = none
    ∧ Transport.makeRequestBody (some (Json.num 0)) = none
    ∧ Transport.makeRequestBody (some (Json.str "")) = none
    ∧ Transport.makeRequestBody (some (Json.bool false)) = none
    ∧ Transport.makeRequestBody (some Json.null) = none
    ∧ Transport.makeRequestBody (some v) = some (Transport.stringify v) := by
  refine ⟨rfl, rfl, rfl, rfl, rfl, ?_⟩
  simp [Transport.makeRequestBody, h]

/-- Witness for C10 with a truthy empty-object body. -/
theorem C10_witness :
    Transport.truthy (Json.obj []) = true
    ∧ (Transport.makeRequestBody none = none
       ∧ Transport.makeRequestBody (some (Json.num 0)) = none
       ∧ Transport.makeRequestBody (some (Json.str "")) = none
       ∧ Transport.makeRequestBody (some (Json.bool false)) = none
       ∧ Transport.makeRequestBody (some Json.null) = none
       ∧ Transport.makeRequestBody (some (Json.obj []))
           = some (Transport.stringify (Json.obj []))) :=
  ⟨rfl, C10_falsy_body_sends_no_payload (Json.obj []) rfl⟩
